import Mathlib

/-!
Verification of the GDScript code-smell analyzer.

The definitions below are a shallow embedding of the analyzer's code model
(CodeLine.js, Method.js, Class.js, GDScriptProject.js), its detector catalog
(LongMethodDetector, RefusedBequestDetector, CommentsDetector,
DuplicateCodeDetector, GlobalStateDetector), its configuration DTO
(AnalysisConfig.js) and the analysis orchestrator
(AnalyzeProjectUseCase.analyzeProject).  JavaScript numbers are modelled as
Nat / ℚ (all quantities involved are non-negative integers or ratios of
such), JavaScript Sets as lists of values, and JavaScript exceptions as
Except.  The theorems at the end of the file settle the spec claims.
-/

namespace GDSmell

/-- JavaScript String.prototype.trim, written over the character list so that
it evaluates by kernel reduction. -/
def strTrim (s : String) : String :=
  ⟨((s.data.dropWhile Char.isWhitespace).reverse.dropWhile Char.isWhitespace).reverse⟩

/-- JavaScript String.prototype.includes: substring containment. -/
def strContains (s sub : String) : Bool :=
  s.data.tails.any (fun t => sub.data.isPrefixOf t)

/-- JavaScript String.prototype.startsWith. -/
def strStartsWith (s p : String) : Bool :=
  p.data.isPrefixOf s.data

/-- JavaScript String.prototype.toLowerCase (ASCII, which covers all strings
appearing in the analyzer). -/
def strToLower (s : String) : String :=
  ⟨s.data.map Char.toLower⟩

/-- String concatenation over character lists (JavaScript + / template
literals), kept kernel-reducible. -/
def strApp (a b : String) : String :=
  ⟨a.data ++ b.data⟩

/-- Array.prototype.join(sep). -/
def strJoin (sep : String) : List String → String
  | [] => ""
  | [x] => x
  | x :: xs => strApp (strApp x sep) (strJoin sep xs)

/-- Severity grades produced by the detectors (the strings 'Low', 'Medium',
'High', 'Critical' in the source). -/
inductive Severity
  | Low
  | Medium
  | High
  | Critical
  deriving DecidableEq, Repr

/-- Value object for a line of code (CodeLine.js).  The constructor stores
content.trim(); the line number carries no behavior used by the claims and is
omitted. -/
structure CodeLine where
  content : String
  deriving DecidableEq, Repr

/-- CodeLine constructor: content is trimmed on construction (CodeLine.js). -/
def CodeLine.make (content : String) : CodeLine :=
  ⟨strTrim content⟩

/-- CodeLine.contains: substring test on the stored content. -/
def CodeLine.containsSub (l : CodeLine) (substring : String) : Bool :=
  strContains l.content substring

/-- CodeLine.hasYieldOrAwait. -/
def CodeLine.hasYieldOrAwait (l : CodeLine) : Bool :=
  l.containsSub "yield" || l.containsSub "await"

/-- CodeLine.isComment. -/
def CodeLine.isComment (l : CodeLine) : Bool :=
  strStartsWith l.content "#" || strStartsWith (strTrim l.content) "//"

/-- Entity for a method parameter (Parameter.js): name, declared type (none
for untyped), optional default value. -/
structure Parameter where
  name : String
  paramType : Option String
  defaultValue : Option String
  deriving DecidableEq, Repr

/-- Entity for a method (Method.js): name, ordered parameters, ordered source
lines, the (caller, callee) call-edge pairs and the (class, field) access
pairs (JavaScript Sets, modelled as lists of pairs). -/
structure Method where
  name : String
  parameters : List Parameter
  lines : List CodeLine
  calls : List (String × String)
  accessedFields : List (String × String)
  deriving DecidableEq, Repr

/-- Method.loc: lines of code is the stored line count. -/
def Method.loc (m : Method) : Nat :=
  m.lines.length

/-- The fixed decision-keyword set of Method.calculateCyclomaticComplexity. -/
def decisionKeywords : List String :=
  ["if", "elif", "while", "for", "match", "and", "or"]

/-- Method.calculateCyclomaticComplexity: base 1, plus one per line that
contains any decision keyword (the inner loop breaks after the first keyword,
so each line counts at most once). -/
def Method.calculateCyclomaticComplexity (m : Method) : Nat :=
  1 + m.lines.countP (fun l => decisionKeywords.any (fun k => l.containsSub k))

/-- Method.cyclomaticComplexity getter. -/
def Method.cyclomaticComplexity (m : Method) : Nat :=
  m.calculateCyclomaticComplexity

/-- Method.getYieldCount: number of lines containing yield or await. -/
def Method.getYieldCount (m : Method) : Nat :=
  (m.lines.filter CodeLine.hasYieldOrAwait).length

/-- Entity for a class (Class.js): name, field identifiers, methods, optional
parent name, exported variables, autoload flag and source file path
(JavaScript Sets modelled as lists). -/
structure Class where
  name : String
  fields : List String
  methods : List Method
  parent : Option String
  exportedVars : List String
  autoload : Bool
  filePath : Option String
  deriving DecidableEq, Repr

/-- Class.getTotalLOC: sum of the methods' lines of code. -/
def Class.getTotalLOC (c : Class) : Nat :=
  (c.methods.map Method.loc).sum

/-- Class.getMethod: first method with the given name. -/
def Class.getMethod (c : Class) (methodName : String) : Option Method :=
  c.methods.find? (fun m => m.name == methodName)

/-- Entity for a scene (Scene.js): name, root node, child nodes, optional
attached script path. -/
structure Scene where
  name : String
  rootNode : String
  childNodes : List String
  scriptPath : Option String
  deriving DecidableEq, Repr

/-- Entity for a whole project (GDScriptProject.js). -/
structure GDScriptProject where
  classes : List Class
  scenes : List Scene
  autoloads : List Class
  signals : List String
  deriving DecidableEq, Repr

/-- GDScriptProject constructor (GDScriptProject.js): validate() throws at the
first autoload that is not a member of the class set or whose autoload flag is
false; otherwise the frozen project is produced.  The JavaScript throw is
modelled as Except.error. -/
def GDScriptProject.make (classes : List Class) (scenes : List Scene)
    (autoloads : List Class) (signals : List String) :
    Except String GDScriptProject :=
  match autoloads.find? (fun a => !(classes.contains a && a.autoload)) with
  | some a =>
      .error (strApp (strApp "Autoload class " a.name)
        " must be in classes and have autoload=true")
  | none => .ok ⟨classes, scenes, autoloads, signals⟩

/-- The duck-typed context object handed to detect(context, thresholds): at
most one of method (+ ownerClass), cls (the source's context.class, renamed
because class is a Lean keyword) (+ project), or project is populated, plus
the originating file path. -/
structure Context where
  method : Option Method := none
  ownerClass : Option Class := none
  cls : Option Class := none
  project : Option GDScriptProject := none
  filePath : Option String := none
  deriving DecidableEq, Repr

/-- CodeSmellResult: smell name, detected flag and severity (null when not
detected).  The location and free-form details payload of the source carry
the raw measurements for reporting only and are not modelled. -/
structure CodeSmellResult where
  name : String
  detected : Bool
  severity : Option Severity
  deriving DecidableEq, Repr

/-- The thresholds mapping passed to detect: a JavaScript object whose keys
may be absent.  Only the keys consumed by the detectors embedded in this file
are listed. -/
structure Thresholds where
  maxLines : Option Nat := none
  maxComplexity : Option Nat := none
  maxYields : Option Nat := none
  usageRatio : Option ℚ := none
  overriddenEmpty : Option Nat := none
  maxCommentDensity : Option ℚ := none
  similarityThreshold : Option Nat := none
  minLines : Option Nat := none
  minSimilarity : Option ℚ := none
  maxAutoloads : Option Nat := none
  maxGlobalVars : Option Nat := none
  deriving DecidableEq, Repr

/-- The JavaScript idiom value || default used for every threshold lookup:
an absent key or a zero value (falsy in JavaScript) yields the default. -/
def orDefault {α : Type} [Zero α] [DecidableEq α] (v : Option α) (d : α) : α :=
  match v with
  | none => d
  | some x => if x = 0 then d else x

namespace LongMethodDetector

/-- LongMethodDetector.detect: on a method context, detected iff LOC, the
cyclomatic complexity or the yield count exceeds its effective threshold;
severity graded by the LOC/complexity tiers 200/30, 100/20, 50/10. -/
def detect (ctx : Context) (t : Thresholds) : Option CodeSmellResult :=
  match ctx.method with
  | none => none
  | some m =>
      let maxLines := orDefault t.maxLines 50
      let maxComplexity := orDefault t.maxComplexity 10
      let maxYields := orDefault t.maxYields 7
      let loc := m.loc
      let complexity := m.cyclomaticComplexity
      let yieldCount := m.getYieldCount
      let isDetected : Bool :=
        decide (loc > maxLines) || decide (complexity > maxComplexity) ||
          decide (yieldCount > maxYields)
      let severity : Option Severity :=
        if isDetected then
          some (if loc > 200 ∨ complexity > 30 then .Critical
            else if loc > 100 ∨ complexity > 20 then .High
            else if loc > 50 ∨ complexity > 10 then .Medium
            else .Low)
        else none
      some ⟨"LongMethod", isDetected, severity⟩

end LongMethodDetector

namespace RefusedBequestDetector

/-- The record returned by RefusedBequestDetector.analyzeInheritanceUsage.
overriddenEmpty keeps, per entry, the method name and the override's LOC. -/
structure InheritanceAnalysis where
  usageRatio : ℚ
  usedMethods : List String
  totalParentMethods : Nat
  overriddenEmpty : List (String × Nat)
  deriving DecidableEq, Repr

/-- RefusedBequestDetector.isMethodUsedBySubclass: some method of the
subclass has a call edge whose callee is parent.name, super.name or the bare
parent-method name.  The template literal stringifies a null parent as
"null". -/
def isMethodUsedBySubclass (parentMethod : Method) (subclass : Class) : Bool :=
  subclass.methods.any fun m =>
    m.calls.any fun call =>
      call.2 == strApp (strApp (subclass.parent.getD "null") ".") parentMethod.name ||
        call.2 == strApp "super." parentMethod.name ||
        call.2 == parentMethod.name

/-- RefusedBequestDetector.isMethodOverridden. -/
def isMethodOverridden (parentMethod : Method) (subclass : Class) : Bool :=
  (subclass.getMethod parentMethod.name).isSome

/-- RefusedBequestDetector.isEmptyOverride: at most two lines and the joined,
lowercased, trimmed content is empty, pass, or mentions super. / super( /
.call(. -/
def isEmptyOverride (m : Method) : Bool :=
  if m.loc ≤ 2 then
    let content := strTrim (strToLower (strJoin " " (m.lines.map CodeLine.content)))
    content == "" || content == "pass" || strContains content "super." ||
      strContains content "super(" || strContains content ".call("
  else false

/-- RefusedBequestDetector.analyzeInheritanceUsage: when the parent class is
not found in the project the ratio defaults to 1.0; otherwise the ratio is
usedMethods / parent method count (0 when the parent has no methods). -/
def analyzeInheritanceUsage (subclass : Class) (project : GDScriptProject) :
    InheritanceAnalysis :=
  match project.classes.find? (fun c => subclass.parent == some c.name) with
  | none => ⟨1, [], 0, []⟩
  | some parentClass =>
      let usedMethods :=
        (parentClass.methods.filter (fun pm => isMethodUsedBySubclass pm subclass)).map
          Method.name
      let overriddenEmpty := parentClass.methods.filterMap fun pm =>
        if isMethodOverridden pm subclass then
          match subclass.getMethod pm.name with
          | some om => if isEmptyOverride om then some (pm.name, om.loc) else none
          | none => none
        else none
      let ratio : ℚ :=
        if parentClass.methods.length > 0 then
          (usedMethods.length : ℚ) / (parentClass.methods.length : ℚ)
        else 0
      ⟨ratio, usedMethods, parentClass.methods.length, overriddenEmpty⟩

/-- RefusedBequestDetector.detect: class scope only, skipped without a parent;
detected iff the usage ratio is strictly below the effective usageRatio
threshold (default 0.3) or there are more empty overrides than the effective
overriddenEmpty threshold (default 0); severity graded against the literal
cut-points 0.2 / 5 and 0.3 / 3.  The orchestrator always populates
context.project on class contexts; an absent project is modelled as the empty
project (in which the parent lookup fails, ratio 1.0). -/
def detect (ctx : Context) (t : Thresholds) : Option CodeSmellResult :=
  match ctx.cls with
  | none => none
  | some cls =>
      match cls.parent with
      | none => none
      | some _ =>
          let usageRatioT := orDefault t.usageRatio (3/10 : ℚ)
          let overriddenEmptyT := orDefault t.overriddenEmpty 0
          let analysis := analyzeInheritanceUsage cls (ctx.project.getD ⟨[], [], [], []⟩)
          let isDetected : Bool :=
            decide (analysis.usageRatio < usageRatioT) ||
              decide (analysis.overriddenEmpty.length > overriddenEmptyT)
          let severity : Option Severity :=
            if isDetected then
              some (if analysis.usageRatio < (1/5 : ℚ) ∨ analysis.overriddenEmpty.length > 5
                then .High
                else if analysis.usageRatio < (3/10 : ℚ) ∨ analysis.overriddenEmpty.length > 3
                then .Medium
                else .Low)
            else none
          some ⟨"RefusedBequest", isDetected, severity⟩

end RefusedBequestDetector

namespace CommentsDetector

/-- The record returned by CommentsDetector.analyzeMethodComments /
analyzeClassComments. -/
structure CommentAnalysis where
  commentLines : Nat
  codeLines : Nat
  totalLines : Nat
  commentDensity : ℚ
  commentRatio : ℚ
  deriving DecidableEq, Repr

/-- CommentsDetector.isCommentLine: GDScript comments start with #. -/
def isCommentLine (content : String) : Bool :=
  strStartsWith content "#"

/-- CommentsDetector.analyzeMethodComments: blank lines are skipped, the rest
are classified comment / code by isCommentLine on the trimmed content. -/
def analyzeMethodComments (m : Method) : CommentAnalysis :=
  let commentLines :=
    m.lines.countP fun l =>
      !(strTrim l.content == "") && isCommentLine (strTrim l.content)
  let codeLines :=
    m.lines.countP fun l =>
      !(strTrim l.content == "") && !isCommentLine (strTrim l.content)
  let totalLines := commentLines + codeLines
  let commentDensity : ℚ :=
    if totalLines > 0 then (commentLines : ℚ) / (totalLines : ℚ) else 0
  let commentRatio : ℚ :=
    if codeLines > 0 then (commentLines : ℚ) / (codeLines : ℚ) else 0
  ⟨commentLines, codeLines, totalLines, commentDensity, commentRatio⟩

/-- CommentsDetector.analyzeClassComments: per-method counts summed over the
class's methods, then the same density and ratio formulas. -/
def analyzeClassComments (c : Class) : CommentAnalysis :=
  let commentLines := (c.methods.map (fun m => (analyzeMethodComments m).commentLines)).sum
  let codeLines := (c.methods.map (fun m => (analyzeMethodComments m).codeLines)).sum
  let totalLines := commentLines + codeLines
  let commentDensity : ℚ :=
    if totalLines > 0 then (commentLines : ℚ) / (totalLines : ℚ) else 0
  let commentRatio : ℚ :=
    if codeLines > 0 then (commentLines : ℚ) / (codeLines : ℚ) else 0
  ⟨commentLines, codeLines, totalLines, commentDensity, commentRatio⟩

/-- CommentsDetector.detect on an analysis record: detected iff the comment
density strictly exceeds the effective maxCommentDensity (default 0.5) and
there are strictly more than 10 code lines; severity Medium above density
0.7, else Low. -/
def grade (analysis : CommentAnalysis) (t : Thresholds) : CodeSmellResult :=
  let maxCommentDensity := orDefault t.maxCommentDensity (1/2 : ℚ)
  let isDetected : Bool :=
    decide (analysis.commentDensity > maxCommentDensity) &&
      decide (analysis.codeLines > 10)
  let severity : Option Severity :=
    if isDetected then
      some (if analysis.commentDensity > (7/10 : ℚ) then .Medium else .Low)
    else none
  ⟨"Comments", isDetected, severity⟩

/-- CommentsDetector.detect: the target is context.method when present, else
context.class (the JavaScript target.lines dispatch); no result otherwise. -/
def detect (ctx : Context) (t : Thresholds) : Option CodeSmellResult :=
  match ctx.method with
  | some m => some (grade (analyzeMethodComments m) t)
  | none =>
      match ctx.cls with
      | some c => some (grade (analyzeClassComments c) t)
      | none => none

end CommentsDetector

namespace DuplicateCodeDetector

/-- DuplicateCodeDetector.countMatchingLines: the two line arrays are trimmed
and deduplicated into JavaScript Sets and the members of the first set that
belong to the second are counted, i.e. the cardinality of the set
intersection. -/
def countMatchingLines (lines1 lines2 : List String) : Nat :=
  ((lines1.map strTrim).toFinset ∩ (lines2.map strTrim).toFinset).card

/-- DuplicateCodeDetector.calculateSimilarity: 1.0 for two empty blocks, 0.0
when exactly one is empty, otherwise matching lines over the longer block's
length. -/
def calculateSimilarity (lines1 lines2 : List String) : ℚ :=
  if lines1.length = 0 ∧ lines2.length = 0 then 1
  else if lines1.length = 0 ∨ lines2.length = 0 then 0
  else (countMatchingLines lines1 lines2 : ℚ) / (max lines1.length lines2.length : ℚ)

/-- A code block extracted from a method (location class / method plus the
line contents). -/
structure CodeBlock where
  className : String
  methodName : String
  lines : List String
  deriving DecidableEq, Repr

/-- DuplicateCodeDetector.extractCodeBlocks: one block per method of every
class of the project. -/
def extractCodeBlocks (p : GDScriptProject) : List CodeBlock :=
  p.classes.flatMap fun c =>
    c.methods.map fun m => ⟨c.name, m.name, m.lines.map CodeLine.content⟩

/-- The ordered pairs (i, j), i < j, of the double loop in findDuplicates. -/
def orderedPairs {α : Type} : List α → List (α × α)
  | [] => []
  | x :: xs => xs.map (fun y => (x, y)) ++ orderedPairs xs

/-- DuplicateCodeDetector.findDuplicates: every ordered pair of blocks, both
at least minLines long, whose similarity is at least minSimilarity and
positive. -/
def findDuplicates (p : GDScriptProject) (minLines : Nat) (minSimilarity : ℚ) :
    List (CodeBlock × CodeBlock × ℚ) :=
  (orderedPairs (extractCodeBlocks p)).filterMap fun pair =>
    if pair.1.lines.length ≥ minLines ∧ pair.2.lines.length ≥ minLines then
      let s := calculateSimilarity pair.1.lines pair.2.lines
      if s ≥ minSimilarity ∧ s > 0 then some (pair.1, pair.2, s) else none
    else none

/-- DuplicateCodeDetector.detect: project scope only; detected iff at least
one duplicate pair exists; severity tiers by duplicate count 10 / 5 / 2. -/
def detect (ctx : Context) (t : Thresholds) : Option CodeSmellResult :=
  match ctx.project with
  | none => none
  | some project =>
      let minLines := orDefault t.minLines 5
      let minSimilarity := orDefault t.minSimilarity (3/5 : ℚ)
      let duplicates := findDuplicates project minLines minSimilarity
      let isDetected : Bool := decide (duplicates.length > 0)
      let severity : Option Severity :=
        if isDetected then
          some (if duplicates.length > 10 then .Critical
            else if duplicates.length > 5 then .High
            else if duplicates.length > 2 then .Medium
            else .Low)
        else none
      some ⟨"DuplicateCode", isDetected, severity⟩

end DuplicateCodeDetector

namespace GlobalStateDetector

/-- Per-autoload record built by GlobalStateDetector.analyzeGlobalState. -/
structure AutoloadDetail where
  name : String
  fieldCount : Nat
  methodCount : Nat
  totalLOC : Nat
  deriving DecidableEq, Repr

/-- The record returned by GlobalStateDetector.analyzeGlobalState. -/
structure GlobalStateAnalysis where
  totalGlobalVars : Nat
  godAutoloads : List AutoloadDetail
  autoloadDetails : List AutoloadDetail
  deriving DecidableEq, Repr

/-- GlobalStateDetector.analyzeGlobalState: a god autoload has more than 400
lines or more than 20 methods; totalGlobalVars sums the autoloads' field
counts. -/
def analyzeGlobalState (p : GDScriptProject) : GlobalStateAnalysis :=
  let details := p.autoloads.map fun a =>
    AutoloadDetail.mk a.name a.fields.length a.methods.length a.getTotalLOC
  let godAutoloads := details.filter fun d =>
    decide (d.totalLOC > 400) || decide (d.methodCount > 20)
  ⟨(details.map AutoloadDetail.fieldCount).sum, godAutoloads, details⟩

/-- GlobalStateDetector.detect: project scope only; detected iff the autoload
count exceeds the effective maxAutoloads (default 5), the aggregate autoload
field count exceeds the effective maxGlobalVars (default 20), or some god
autoload exists; any god autoload grades Critical, then the literal tiers
8 / 40 and 5 / 20. -/
def detect (ctx : Context) (t : Thresholds) : Option CodeSmellResult :=
  match ctx.project with
  | none => none
  | some project =>
      let maxAutoloads := orDefault t.maxAutoloads 5
      let maxGlobalVars := orDefault t.maxGlobalVars 20
      let analysis := analyzeGlobalState project
      let isDetected : Bool :=
        decide (project.autoloads.length > maxAutoloads) ||
          decide (analysis.totalGlobalVars > maxGlobalVars) ||
          decide (analysis.godAutoloads.length > 0)
      let severity : Option Severity :=
        if isDetected then
          some (if analysis.godAutoloads.length > 0 then .Critical
            else if project.autoloads.length > 8 ∨ analysis.totalGlobalVars > 40 then .High
            else if project.autoloads.length > 5 ∨ analysis.totalGlobalVars > 20 then .Medium
            else .Low)
        else none
      some ⟨"GlobalState", isDetected, severity⟩

end GlobalStateDetector

/-- The raw configuration document handed to the AnalysisConfig constructor
(AnalysisConfig.js): every key may be absent.  Only the threshold keys
consumed by the detectors embedded in this file are listed; the remaining
keys of the source follow the identical value || default pattern. -/
structure AnalysisConfigInput where
  maxLines : Option Nat := none
  maxComplexity : Option Nat := none
  maxYields : Option Nat := none
  usageRatio : Option ℚ := none
  overriddenEmpty : Option Nat := none
  maxCommentDensity : Option ℚ := none
  similarityThreshold : Option Nat := none
  minLines : Option Nat := none
  minSimilarity : Option ℚ := none
  maxAutoloads : Option Nat := none
  maxGlobalVars : Option Nat := none
  enabledDetectors : Option (List String) := none
  deriving DecidableEq, Repr

/-- The twenty detector names of the default enabledDetectors list in
AnalysisConfig.js. -/
def defaultEnabledDetectors : List String :=
  ["LongMethod", "LargeClass", "DuplicateCode", "LongParameterList",
   "DivergentChange", "ShotgunSurgery", "FeatureEnvy", "DataClumps",
   "PrimitiveObsession", "SwitchStatements", "LazyClass",
   "SpeculativeGenerality", "TemporaryField", "MessageChains", "MiddleMan",
   "InappropriateIntimacy", "DataClass", "RefusedBequest", "Comments",
   "GlobalState"]

/-- The frozen AnalysisConfig: thresholds resolved through value || default
at construction, enabledDetectors taken verbatim from the input or defaulted
to the full catalog.  The constructor performs no validation of the detector
names. -/
structure AnalysisConfig where
  thresholds : Thresholds
  enabledDetectors : List String
  deriving DecidableEq, Repr

/-- The AnalysisConfig constructor (AnalysisConfig.js). -/
def AnalysisConfig.make (c : AnalysisConfigInput) : AnalysisConfig where
  thresholds :=
    { maxLines := some (orDefault c.maxLines 50)
      maxComplexity := some (orDefault c.maxComplexity 10)
      maxYields := some (orDefault c.maxYields 7)
      usageRatio := some (orDefault c.usageRatio (3/10 : ℚ))
      overriddenEmpty := some (orDefault c.overriddenEmpty 0)
      maxCommentDensity := some (orDefault c.maxCommentDensity (1/2 : ℚ))
      similarityThreshold := some (orDefault c.similarityThreshold 6)
      minLines := some (orDefault c.minLines 5)
      minSimilarity := some (orDefault c.minSimilarity (3/5 : ℚ))
      maxAutoloads := some (orDefault c.maxAutoloads 5)
      maxGlobalVars := some (orDefault c.maxGlobalVars 20) }
  enabledDetectors := c.enabledDetectors.getD defaultEnabledDetectors

/-- AnalysisConfig.isDetectorEnabled: membership in enabledDetectors. -/
def AnalysisConfig.isDetectorEnabled (cfg : AnalysisConfig) (n : String) : Bool :=
  cfg.enabledDetectors.contains n

/-- AnalysisConfig.getDetectorThresholds: the relevant-key table restricted
to the detectors embedded in this file; every other name maps to the empty
record. -/
def AnalysisConfig.getDetectorThresholds (cfg : AnalysisConfig) (n : String) :
    Thresholds :=
  if n == "LongMethod" then
    { maxLines := cfg.thresholds.maxLines
      maxComplexity := cfg.thresholds.maxComplexity
      maxYields := cfg.thresholds.maxYields }
  else if n == "DuplicateCode" then
    { similarityThreshold := cfg.thresholds.similarityThreshold
      minLines := cfg.thresholds.minLines
      minSimilarity := cfg.thresholds.minSimilarity }
  else if n == "RefusedBequest" then
    { usageRatio := cfg.thresholds.usageRatio
      overriddenEmpty := cfg.thresholds.overriddenEmpty }
  else if n == "Comments" then
    { maxCommentDensity := cfg.thresholds.maxCommentDensity }
  else if n == "GlobalState" then
    { maxAutoloads := cfg.thresholds.maxAutoloads
      maxGlobalVars := cfg.thresholds.maxGlobalVars }
  else {}

/-- A detector as the orchestrator sees it: a stable name and the detect
operation.  detect may throw (Except.error models the JavaScript exception
the orchestrator catches); the concrete detectors of this file are total and
are wrapped with Except.ok. -/
structure DetectorImpl where
  name : String
  run : Context → Thresholds → Except String (Option CodeSmellResult)

/-- One detector invocation at one scope under the orchestrator's guard
(AnalyzeProjectUseCase.analyzeProject): skipped when the detector is not
enabled; a thrown error is caught (and logged) and contributes nothing; a
null result contributes nothing; otherwise the single result is kept. -/
def runDetectorAt (cfg : AnalysisConfig) (d : DetectorImpl) (ctx : Context) :
    List CodeSmellResult :=
  if cfg.isDetectorEnabled d.name then
    match d.run ctx (cfg.getDetectorThresholds d.name) with
    | .ok (some r) => [r]
    | .ok none => []
    | .error _ => []
  else []

/-- The method contexts of the orchestrator's first loop, in iteration
order. -/
def methodContexts (p : GDScriptProject) : List Context :=
  p.classes.flatMap fun c =>
    c.methods.map fun m =>
      { method := some m, ownerClass := some c, filePath := c.filePath }

/-- The class contexts of the orchestrator's second loop. -/
def classContexts (p : GDScriptProject) : List Context :=
  p.classes.map fun c =>
    { cls := some c, project := some p, filePath := c.filePath }

/-- The single project context of the orchestrator's third loop. -/
def projectContext (p : GDScriptProject) : Context :=
  { project := some p }

/-- All scopes the orchestrator visits, in order. -/
def allContexts (p : GDScriptProject) : List Context :=
  methodContexts p ++ classContexts p ++ [projectContext p]

/-- AnalyzeProjectUseCase.analyzeProject: every method scope, then every
class scope, then the project scope; at each scope every detector in catalog
order, each invocation guarded individually by runDetectorAt. -/
def analyzeProject (ds : List DetectorImpl) (p : GDScriptProject)
    (cfg : AnalysisConfig) : List CodeSmellResult :=
  ((methodContexts p).flatMap fun ctx => ds.flatMap fun d => runDetectorAt cfg d ctx) ++
    ((classContexts p).flatMap fun ctx => ds.flatMap fun d => runDetectorAt cfg d ctx) ++
    (ds.flatMap fun d => runDetectorAt cfg d (projectContext p))

/-! Concrete fixtures used to settle the claims on explicit inputs. -/

/-- A parent method with the given name and no body, calls or accesses. -/
def namedMethod (n : String) : Method :=
  ⟨n, [], [], [], []⟩

/-- The ten methods of the parent class in the RefusedBequest scenario. -/
def parentMethods : List Method :=
  [namedMethod "m0", namedMethod "m1", namedMethod "m2", namedMethod "m3",
   namedMethod "m4", namedMethod "m5", namedMethod "m6", namedMethod "m7",
   namedMethod "m8", namedMethod "m9"]

/-- The parent class P with ten methods. -/
def parentCls : Class :=
  ⟨"P", [], parentMethods, none, [], false, none⟩

/-- The subclass's own method: its call edges reach exactly the parent
methods m0 and m1 (bare callee names). -/
def subOwnMethod : Method :=
  ⟨"own", [], [], [("S", "m0"), ("S", "m1")], []⟩

/-- The subclass S of P: uses 2 of P's 10 methods, overrides none. -/
def subCls : Class :=
  ⟨"S", [], [subOwnMethod], some "P", [], false, none⟩

/-- The project of the RefusedBequest scenario. -/
def rbProject : GDScriptProject :=
  ⟨[parentCls, subCls], [], [], []⟩

/-- The class context the orchestrator builds for S. -/
def rbContext : Context :=
  { cls := some subCls, project := some rbProject }

/-- A method with 12 comment lines and 8 code lines and no blank line:
comment density 12/20 = 0.6 over 20 non-blank lines, but only 8 code
lines. -/
def commentHeavyMethod : Method :=
  ⟨"documented", [],
    List.replicate 12 (⟨"# note"⟩ : CodeLine) ++ List.replicate 8 (⟨"x = 1"⟩ : CodeLine),
    [], []⟩

/-- Six pairwise distinct source lines. -/
def dupLines : List String :=
  ["var a = 1", "var b = 2", "var c = 3", "var d = 4", "var e = 5", "var f = 6"]

/-- Six pairwise distinct source lines sharing exactly three lines with
dupLines. -/
def sharedLines : List String :=
  ["var a = 1", "var b = 2", "var c = 3", "var x = 7", "var y = 8", "var z = 9"]

/-- A method named n with the given line contents as its body. -/
def bodyMethod (n : String) (ls : List String) : Method :=
  ⟨n, [], ls.map (fun s => (⟨s⟩ : CodeLine)), [], []⟩

/-- A project whose single class holds two methods with identical 6-line
bodies. -/
def dupProject : GDScriptProject :=
  ⟨[⟨"C", [], [bodyMethod "first" dupLines, bodyMethod "second" dupLines],
      none, [], false, none⟩], [], [], []⟩

/-- A project whose single class holds two 6-line methods sharing exactly
three lines. -/
def partialProject : GDScriptProject :=
  ⟨[⟨"C", [], [bodyMethod "first" dupLines, bodyMethod "second" sharedLines],
      none, [], false, none⟩], [], [], []⟩

/-- A one-line method used as the body of small autoload classes. -/
def tinyMethod : Method :=
  ⟨"ready", [], [⟨"pass"⟩], [], []⟩

/-- A small autoload class: one field, one one-line method. -/
def smallAutoload (n : String) : Class :=
  ⟨n, ["state"], [tinyMethod], none, [], true, none⟩

/-- The six small autoloads of the GlobalState scenario. -/
def sixAutoloads : List Class :=
  [smallAutoload "A1", smallAutoload "A2", smallAutoload "A3",
   smallAutoload "A4", smallAutoload "A5", smallAutoload "A6"]

/-- A project with six autoloads, none oversized, aggregate field count 6. -/
def sixAutoloadProject : GDScriptProject :=
  ⟨sixAutoloads, [], sixAutoloads, []⟩

/-- An autoload class with 25 methods (a god autoload by method count). -/
def godAutoload : Class :=
  ⟨"Hub", ["state"], List.replicate 25 tinyMethod, none, [], true, none⟩

/-- The six-autoload project extended with the god autoload. -/
def godProject : GDScriptProject :=
  ⟨godAutoload :: sixAutoloads, [], godAutoload :: sixAutoloads, []⟩

/-- A ten-line method with no decision keyword and no yield / await. -/
def tenLineMethod : Method :=
  ⟨"simple", [], List.replicate 10 (⟨"x = 1"⟩ : CodeLine), [], []⟩

/-- A minimal project for the orchestrator scenarios: one class with one
method. -/
def orchProject : GDScriptProject :=
  ⟨[⟨"C", [], [namedMethod "m"], none, [], false, none⟩], [], [], []⟩

/-- The project scope of orchProject: the scope at which the failing
detector's invocation is made to throw. -/
def orchFailCtx : Context :=
  projectContext orchProject

/-- A well-behaved detector stub named LongMethod that returns null
everywhere. -/
def okDetector : DetectorImpl :=
  ⟨"LongMethod", fun _ _ => .ok none⟩

/-- A detector stub that behaves like okDetector except at orchFailCtx, where
its invocation throws. -/
def errDetector : DetectorImpl :=
  ⟨"LongMethod", fun ctx _ => if ctx = orchFailCtx then .error "detector failure" else .ok none⟩

/-- A configuration input whose enabledDetectors holds a name that is not
one of the twenty known detector names. -/
def badConfigInput : AnalysisConfigInput :=
  { enabledDetectors := some ["NotADetector"] }

/-- LongMethodDetector packaged for the orchestrator. -/
def longMethodImpl : DetectorImpl :=
  ⟨"LongMethod", fun ctx t => .ok (LongMethodDetector.detect ctx t)⟩

/-! Theorems settling the claims. -/

/-- C1: for every method and every effective threshold set, the LongMethod
detector's result has detected = true iff the method's lines-of-code exceeds
maxLines, or its cyclomatic complexity exceeds maxComplexity, or its
yield/await count exceeds maxYields.  The effective thresholds are the
value || default resolutions orDefault t.maxLines 50, orDefault
t.maxComplexity 10 and orDefault t.maxYields 7. -/
theorem longMethod_detect_iff (m : Method) (oc : Option Class)
    (fp : Option String) (t : Thresholds) :
    ∃ r, LongMethodDetector.detect
        { method := some m, ownerClass := oc, filePath := fp } t = some r ∧
      (r.detected = true ↔
        (m.loc > orDefault t.maxLines 50 ∨
          m.cyclomaticComplexity > orDefault t.maxComplexity 10 ∨
          m.getYieldCount > orDefault t.maxYields 7)) := by
  refine ⟨_, rfl, ?_⟩
  simp [Bool.or_eq_true, decide_eq_true_eq, or_assoc]

/-- C4: block similarity is symmetric, 1.0 when both line sequences are
empty, and 0.0 when exactly one of them is empty. -/
theorem similarity_symmetric_and_empty :
    (∀ a b : List String,
      DuplicateCodeDetector.calculateSimilarity a b =
        DuplicateCodeDetector.calculateSimilarity b a) ∧
    DuplicateCodeDetector.calculateSimilarity [] [] = 1 ∧
    (∀ (x : String) (xs : List String),
      DuplicateCodeDetector.calculateSimilarity [] (x :: xs) = 0 ∧
        DuplicateCodeDetector.calculateSimilarity (x :: xs) [] = 0) := by
  have hcm : ∀ a b : List String,
      DuplicateCodeDetector.countMatchingLines a b =
        DuplicateCodeDetector.countMatchingLines b a := by
    intro a b
    unfold DuplicateCodeDetector.countMatchingLines
    rw [Finset.inter_comm]
  refine ⟨?_, ?_, ?_⟩
  · intro a b
    unfold DuplicateCodeDetector.calculateSimilarity
    by_cases ha : a.length = 0 <;> by_cases hb : b.length = 0 <;>
      simp [ha, hb, hcm a b, sup_comm]
  · simp [DuplicateCodeDetector.calculateSimilarity]
  · intro x xs
    constructor <;> simp [DuplicateCodeDetector.calculateSimilarity]

/-- C7: constructing a GDScriptProject succeeds iff every autoload is a
member of the class set and carries autoload = true; otherwise the
constructor fails (throws) before any detector can run. -/
theorem project_make_ok_iff (classes : List Class) (scenes : List Scene)
    (autoloads : List Class) (signals : List String) :
    (GDScriptProject.make classes scenes autoloads signals).isOk = true ↔
      ∀ a ∈ autoloads, a ∈ classes ∧ a.autoload = true := by
  unfold GDScriptProject.make
  rcases hf : autoloads.find? (fun a => !(classes.contains a && a.autoload)) with _ | a
  · rw [List.find?_eq_none] at hf
    refine iff_of_true rfl ?_
    intro a ha
    have h := hf a ha
    simp only [Bool.not_eq_true', Bool.not_eq_false, Bool.and_eq_true,
      List.contains, List.elem_eq_mem, decide_eq_true_eq] at h
    exact h
  · have hpa := List.find?_some hf
    have hmem := List.mem_of_find?_eq_some hf
    refine iff_of_false (by simp [Except.isOk, Except.toBool]) ?_
    intro hall
    have h := hall a hmem
    have htrue : (classes.contains a && a.autoload) = true := by
      simp [List.contains, List.elem_eq_mem, h.1, h.2]
    rw [htrue] at hpa
    simp at hpa

/-- C10: a threshold whose supplied value is 0 is treated as absent and
replaced by the built-in default (the JavaScript value || default idiom),
both for numeric and rational thresholds; in particular the LongMethod
detector behaves with maxLines, maxComplexity, maxYields all set to 0
exactly as with no thresholds supplied, and a 10-line simple method is not
flagged even with maxLines explicitly 0. -/
theorem zero_threshold_uses_default :
    (∀ d : Nat, orDefault (some 0) d = d ∧ orDefault (none : Option Nat) d = d) ∧
    (∀ q : ℚ, orDefault (some (0 : ℚ)) q = q ∧ orDefault (none : Option ℚ) q = q) ∧
    (∀ ctx : Context,
      LongMethodDetector.detect ctx
        { maxLines := some 0, maxComplexity := some 0, maxYields := some 0 } =
      LongMethodDetector.detect ctx {}) ∧
    (LongMethodDetector.detect { method := some tenLineMethod }
        { maxLines := some 0 }).map CodeSmellResult.detected = some false := by
  refine ⟨fun d => ⟨rfl, rfl⟩, fun q => ⟨?_, rfl⟩, fun ctx => rfl, by decide⟩
  simp [orDefault]

/-- C9 counterexample: the AnalysisConfig constructor accepts a
configuration whose enabledDetectors contains a name outside the twenty
known detector names — the configuration is produced with the unknown name
stored verbatim, not rejected with an error. -/
theorem config_unknown_name_accepted_cex :
    (AnalysisConfig.make badConfigInput).enabledDetectors = ["NotADetector"] ∧
      defaultEnabledDetectors.contains "NotADetector" = false :=
  ⟨rfl, by decide⟩

/-- C9 amended: loading a configuration stores enabledDetectors verbatim
without validating the names; a name that matches no detector is silently
ignored during analysis, because every detector invocation is guarded by the
enabled-name check. -/
theorem config_unknown_name_ignored :
    (∀ names : List String,
      (AnalysisConfig.make { enabledDetectors := some names }).enabledDetectors = names) ∧
    (∀ (cfg : AnalysisConfig) (d : DetectorImpl) (ctx : Context),
      cfg.isDetectorEnabled d.name = false → runDetectorAt cfg d ctx = []) := by
  refine ⟨fun _ => rfl, fun cfg d ctx h => ?_⟩
  simp [runDetectorAt, h]

/-- C9 amended, applied: under the configuration holding only the unknown
name, the orchestrator's guard skips the LongMethod detector at the project
scope. -/
theorem config_unknown_name_ignored_app :
    runDetectorAt (AnalysisConfig.make badConfigInput) longMethodImpl orchFailCtx = [] :=
  config_unknown_name_ignored.2 (AnalysisConfig.make badConfigInput)
    longMethodImpl orchFailCtx (by decide)

/-- C6: a project with 6 autoloads (default maxAutoloads 5), none oversized
and aggregate field count within maxGlobalVars, is detected with severity
Medium; and for any project, an autoload with 25 methods is a god autoload,
so the detector reports detected with severity Critical regardless of the
autoload count. -/
theorem globalState_six_and_god :
    ((GlobalStateDetector.detect { project := some sixAutoloadProject } {}).map
        (fun r => (r.detected, r.severity)) = some (true, some Severity.Medium)) ∧
    (∀ (p : GDScriptProject) (a : Class), a ∈ p.autoloads → a.methods.length = 25 →
      ∃ r, GlobalStateDetector.detect { project := some p } {} = some r ∧
        r.detected = true ∧ r.severity = some Severity.Critical) := by
  constructor
  · decide
  · intro p a ha h25
    have hdet : (⟨a.name, a.fields.length, a.methods.length, a.getTotalLOC⟩ :
        GlobalStateDetector.AutoloadDetail) ∈
        (GlobalStateDetector.analyzeGlobalState p).godAutoloads := by
      unfold GlobalStateDetector.analyzeGlobalState
      refine List.mem_filter.mpr ⟨?_, ?_⟩
      · exact List.mem_map_of_mem _ ha
      · simp [h25]
    have hpos : 0 < (GlobalStateDetector.analyzeGlobalState p).godAutoloads.length :=
      List.length_pos_of_mem hdet
    simp only [GlobalStateDetector.detect]
    refine ⟨_, rfl, ?_, ?_⟩ <;> simp [hpos]

/-- C6, applied: the god-autoload branch of the previous theorem at the
concrete project holding a 25-method autoload next to the six small ones. -/
theorem globalState_six_and_god_app :
    ∃ r, GlobalStateDetector.detect { project := some godProject } {} = some r ∧
      r.detected = true ∧ r.severity = some Severity.Critical :=
  globalState_six_and_god.2 godProject godAutoload (by decide) (by decide)

/-- The orchestrator's result list is the concatenation, over every scope it
visits in order, of the per-scope contributions of every detector in
catalog order. -/
theorem analyzeProject_eq_flatMap (ds : List DetectorImpl) (p : GDScriptProject)
    (cfg : AnalysisConfig) :
    analyzeProject ds p cfg =
      (allContexts p).flatMap (fun ctx => ds.flatMap fun d => runDetectorAt cfg d ctx) := by
  unfold analyzeProject allContexts
  rw [List.flatMap_append, List.flatMap_append]
  simp

/-- flatMap only depends on the pointwise values of its function. -/
theorem flatMapPointwise {α β : Type} (l : List α) (f g : α → List β)
    (h : ∀ a ∈ l, f a = g a) : l.flatMap f = l.flatMap g := by
  induction l with
  | nil => rfl
  | cons x xs ih =>
      have hx := h x (List.mem_cons_self x xs)
      have hxs : ∀ a ∈ xs, f a = g a := fun a haa => h a (List.mem_cons_of_mem x haa)
      simp only [List.flatMap_cons, hx, ih hxs]

/-- C8: a detector invocation that throws at one scope does not abort the
analysis.  If derr behaves like the well-behaved dok everywhere except at
scope ctx0, where it throws, then the full analysis over a catalog
containing derr yields exactly every other detector's contribution at every
scope plus dok's contributions at every scope other than ctx0, with no
contribution from the failing detector at ctx0 — compare the second
conjunct, the same catalog with dok in place of derr. -/
theorem analyze_isolates_failure (ds₁ ds₂ : List DetectorImpl)
    (p : GDScriptProject) (cfg : AnalysisConfig) (ctx0 : Context)
    (dok derr : DetectorImpl)
    (hname : derr.name = dok.name)
    (hagree : ∀ ctx t, ctx ≠ ctx0 → derr.run ctx t = dok.run ctx t)
    (hfail : ∀ t, ∃ e, derr.run ctx0 t = .error e) :
    analyzeProject (ds₁ ++ derr :: ds₂) p cfg =
      (allContexts p).flatMap (fun ctx =>
        (ds₁.flatMap fun d => runDetectorAt cfg d ctx) ++
          (if ctx = ctx0 then [] else runDetectorAt cfg dok ctx) ++
          (ds₂.flatMap fun d => runDetectorAt cfg d ctx)) ∧
    analyzeProject (ds₁ ++ dok :: ds₂) p cfg =
      (allContexts p).flatMap (fun ctx =>
        (ds₁.flatMap fun d => runDetectorAt cfg d ctx) ++
          runDetectorAt cfg dok ctx ++
          (ds₂.flatMap fun d => runDetectorAt cfg d ctx)) := by
  have hmid : ∀ ctx, runDetectorAt cfg derr ctx =
      if ctx = ctx0 then [] else runDetectorAt cfg dok ctx := by
    intro ctx
    by_cases hc : ctx = ctx0
    · subst hc
      rcases hfail (cfg.getDetectorThresholds derr.name) with ⟨e, he⟩
      by_cases hen : cfg.isDetectorEnabled derr.name = true <;>
        simp [runDetectorAt, hen, he]
    · rw [if_neg hc]
      unfold runDetectorAt
      rw [hname, hagree ctx _ hc]
  constructor
  · rw [analyzeProject_eq_flatMap]
    refine flatMapPointwise _ _ _ (fun ctx _ => ?_)
    rw [List.flatMap_append, List.flatMap_cons, hmid ctx, List.append_assoc]
  · rw [analyzeProject_eq_flatMap]
    refine flatMapPointwise _ _ _ (fun ctx _ => ?_)
    rw [List.flatMap_append, List.flatMap_cons, List.append_assoc]

/-- C8, applied: with a single-detector catalog whose invocation throws at
the project scope of the one-class project, the analysis still visits every
scope and the failing invocation contributes nothing. -/
theorem analyze_isolates_failure_app :
    analyzeProject [errDetector] orchProject (AnalysisConfig.make {}) =
      (allContexts orchProject).flatMap (fun ctx =>
        [] ++ (if ctx = orchFailCtx then [] else
          runDetectorAt (AnalysisConfig.make {}) okDetector ctx) ++ []) ∧
    analyzeProject [okDetector] orchProject (AnalysisConfig.make {}) =
      (allContexts orchProject).flatMap (fun ctx =>
        [] ++ runDetectorAt (AnalysisConfig.make {}) okDetector ctx ++ []) :=
  analyze_isolates_failure [] [] orchProject (AnalysisConfig.make {}) orchFailCtx
    okDetector errDetector rfl
    (fun ctx t h => by simp [errDetector, okDetector, h])
    (fun t => ⟨"detector failure", by simp [errDetector]⟩)

/-- The comment analysis of the 12-comment / 8-code method: density 0.6 over
20 non-blank lines, of which only 8 are code lines. -/
theorem commentHeavyAnalysis :
    CommentsDetector.analyzeMethodComments commentHeavyMethod =
      ⟨12, 8, 20, 3/5, 3/2⟩ := by
  have h1 : commentHeavyMethod.lines.countP (fun l =>
      !(strTrim l.content == "") && CommentsDetector.isCommentLine (strTrim l.content)) = 12 := by
    decide
  have h2 : commentHeavyMethod.lines.countP (fun l =>
      !(strTrim l.content == "") && !CommentsDetector.isCommentLine (strTrim l.content)) = 8 := by
    decide
  unfold CommentsDetector.analyzeMethodComments
  rw [h1, h2]
  norm_num

/-- C3 counterexample: on the 12-comment / 8-code method the claim's
condition holds — comment density 0.6 exceeds 0.5 over 20 non-blank lines,
more than 10 — yet the detector reports detected = false, because its floor
is on code lines (8 here), not on non-blank lines. -/
theorem comments_floor_cex :
    ((CommentsDetector.analyzeMethodComments commentHeavyMethod).commentDensity > 1/2 ∧
      (CommentsDetector.analyzeMethodComments commentHeavyMethod).totalLines > 10) ∧
    CommentsDetector.detect { method := some commentHeavyMethod } {} =
      some ⟨"Comments", false, none⟩ := by
  refine ⟨⟨?_, ?_⟩, ?_⟩
  · rw [commentHeavyAnalysis]
    norm_num
  · rw [commentHeavyAnalysis]
    norm_num
  · simp only [CommentsDetector.detect]
    rw [commentHeavyAnalysis]
    norm_num [CommentsDetector.grade, orDefault]

/-- C3 amended: on a method scope the Comments detector reports detected =
true iff the comment density (commentLines over non-blank lines) strictly
exceeds the effective maxCommentDensity (default 0.5) and the method has
strictly more than 10 code lines (non-blank, non-comment); when detected,
severity is Medium above density 0.7 and Low otherwise. -/
theorem comments_detect_iff (m : Method) (oc : Option Class)
    (fp : Option String) (t : Thresholds) :
    ∃ r, CommentsDetector.detect
        { method := some m, ownerClass := oc, filePath := fp } t = some r ∧
      (r.detected = true ↔
        ((CommentsDetector.analyzeMethodComments m).commentDensity >
            orDefault t.maxCommentDensity (1/2 : ℚ) ∧
          (CommentsDetector.analyzeMethodComments m).codeLines > 10)) ∧
      r.severity = (if r.detected = true then
          some (if (CommentsDetector.analyzeMethodComments m).commentDensity > (7/10 : ℚ)
            then Severity.Medium else Severity.Low)
          else none) := by
  refine ⟨_, rfl, ?_, ?_⟩
  · simp [CommentsDetector.grade, Bool.and_eq_true, decide_eq_true_eq]
  · rfl

/-- The inheritance analysis of the scenario subclass S under parent P: two
of ten parent methods used, ratio exactly 1/5, no empty overrides. -/
theorem rbAnalysis :
    RefusedBequestDetector.analyzeInheritanceUsage subCls rbProject =
      ⟨1/5, ["m0", "m1"], 10, []⟩ := by
  have hfind : rbProject.classes.find? (fun c => subCls.parent == some c.name) =
      some parentCls := by decide
  have hfil : (parentCls.methods.filter
      (fun pm => RefusedBequestDetector.isMethodUsedBySubclass pm subCls)).map
        Method.name = ["m0", "m1"] := by decide
  have hovr : parentCls.methods.filterMap (fun pm =>
      if RefusedBequestDetector.isMethodOverridden pm subCls then
        match subCls.getMethod pm.name with
        | some om =>
            if RefusedBequestDetector.isEmptyOverride om then some (pm.name, om.loc) else none
        | none => none
      else none) = [] := by decide
  have hlen : parentCls.methods.length = 10 := by decide
  unfold RefusedBequestDetector.analyzeInheritanceUsage
  simp only [hfind]
  rw [hfil, hovr, hlen]
  norm_num

/-- The detector's verdict on the scenario subclass: detected, severity
Medium (the ratio 0.2 is not strictly below the 0.2 High cut-point). -/
theorem rbDetect :
    RefusedBequestDetector.detect rbContext {} =
      some ⟨"RefusedBequest", true, some Severity.Medium⟩ := by
  have hpar : subCls.parent = some "P" := rfl
  have h1 : ¬((1/5 : ℚ) < 1/5) := by norm_num
  have h2 : (1/5 : ℚ) < 3/10 := by norm_num
  simp only [RefusedBequestDetector.detect, rbContext, hpar, Option.getD_some]
  simp only [rbAnalysis]
  norm_num [orDefault]

/-- C2 counterexample: the subclass using 2 of its parent's 10 methods
(ratio 0.2, no empty overrides) is detected, but with severity Medium, not
High — the High branch requires the ratio strictly below 0.2, and 0.2 < 0.2
fails. -/
theorem refusedBequest_boundary_cex :
    RefusedBequestDetector.detect rbContext {} =
      some ⟨"RefusedBequest", true, some Severity.Medium⟩ ∧
    some Severity.Medium ≠ some Severity.High :=
  ⟨rbDetect, by decide⟩

/-- C2 amended: a subclass whose parent has 10 methods of which it uses
exactly 2 (usage ratio 0.2, below the default 0.3 threshold) and which has
no empty overrides is detected with severity Medium (not High: the High
cut-point 0.2 is exclusive). -/
theorem refusedBequest_low_ratio_detected_medium :
    (RefusedBequestDetector.analyzeInheritanceUsage subCls rbProject).totalParentMethods = 10 ∧
    (RefusedBequestDetector.analyzeInheritanceUsage subCls rbProject).usedMethods = ["m0", "m1"] ∧
    (RefusedBequestDetector.analyzeInheritanceUsage subCls rbProject).usageRatio = 1/5 ∧
    (RefusedBequestDetector.analyzeInheritanceUsage subCls rbProject).overriddenEmpty = [] ∧
    RefusedBequestDetector.detect rbContext {} =
      some ⟨"RefusedBequest", true, some Severity.Medium⟩ := by
  refine ⟨?_, ?_, ?_, ?_, rbDetect⟩ <;> rw [rbAnalysis]

/-- Identical 6-line blocks have similarity exactly 1. -/
theorem dupSimOne : DuplicateCodeDetector.calculateSimilarity dupLines dupLines = 1 := by
  have h : DuplicateCodeDetector.countMatchingLines dupLines dupLines = 6 := by decide
  have hl : dupLines.length = 6 := by decide
  unfold DuplicateCodeDetector.calculateSimilarity
  rw [h, hl]
  norm_num

/-- 6-line blocks sharing exactly 3 lines have similarity exactly 1/2. -/
theorem dupSimHalf : DuplicateCodeDetector.calculateSimilarity dupLines sharedLines = 1/2 := by
  have h : DuplicateCodeDetector.countMatchingLines dupLines sharedLines = 3 := by decide
  have hl : dupLines.length = 6 := by decide
  have hl2 : sharedLines.length = 6 := by decide
  unfold DuplicateCodeDetector.calculateSimilarity
  rw [h, hl, hl2]
  norm_num

/-- The duplicate search on the identical-bodies project finds exactly the
one pair, at similarity 1. -/
theorem dupFind :
    DuplicateCodeDetector.findDuplicates dupProject 5 (3/5) =
      [(⟨"C", "first", dupLines⟩, ⟨"C", "second", dupLines⟩, 1)] := by
  have hex : DuplicateCodeDetector.extractCodeBlocks dupProject =
      [⟨"C", "first", dupLines⟩, ⟨"C", "second", dupLines⟩] := by decide
  have hl : dupLines.length = 6 := by decide
  unfold DuplicateCodeDetector.findDuplicates
  rw [hex]
  simp only [DuplicateCodeDetector.orderedPairs, List.map_cons, List.map_nil,
    List.append_nil, List.nil_append, List.filterMap_cons, List.filterMap_nil]
  rw [dupSimOne, hl]
  norm_num

/-- The duplicate search on the 3-of-6 project finds nothing: similarity 1/2
is below the 0.6 cut. -/
theorem partialFind :
    DuplicateCodeDetector.findDuplicates partialProject 5 (3/5) = [] := by
  have hex : DuplicateCodeDetector.extractCodeBlocks partialProject =
      [⟨"C", "first", dupLines⟩, ⟨"C", "second", sharedLines⟩] := by decide
  have hl : dupLines.length = 6 := by decide
  have hl2 : sharedLines.length = 6 := by decide
  unfold DuplicateCodeDetector.findDuplicates
  rw [hex]
  simp only [DuplicateCodeDetector.orderedPairs, List.map_cons, List.map_nil,
    List.append_nil, List.nil_append, List.filterMap_cons, List.filterMap_nil]
  rw [dupSimHalf, hl, hl2]
  norm_num

/-- The detector's verdict on the identical-bodies project. -/
theorem dupDetect :
    DuplicateCodeDetector.detect { project := some dupProject } {} =
      some ⟨"DuplicateCode", true, some Severity.Low⟩ := by
  simp only [DuplicateCodeDetector.detect, orDefault]
  simp only [dupFind]
  norm_num

/-- The detector's verdict on the 3-of-6 project. -/
theorem partialDetect :
    DuplicateCodeDetector.detect { project := some partialProject } {} =
      some ⟨"DuplicateCode", false, none⟩ := by
  simp only [DuplicateCodeDetector.detect, orDefault]
  simp only [partialFind]
  norm_num

/-- C5: two methods with identical 6-line bodies give similarity 1.0 and a
detected finding; two 6-line methods sharing exactly 3 lines give similarity
0.5 and, under the default minSimilarity 0.6, no finding. -/
theorem duplicateCode_scenarios :
    DuplicateCodeDetector.calculateSimilarity dupLines dupLines = 1 ∧
    DuplicateCodeDetector.detect { project := some dupProject } {} =
      some ⟨"DuplicateCode", true, some Severity.Low⟩ ∧
    DuplicateCodeDetector.calculateSimilarity dupLines sharedLines = 1/2 ∧
    DuplicateCodeDetector.detect { project := some partialProject } {} =
      some ⟨"DuplicateCode", false, none⟩ :=
  ⟨dupSimOne, dupDetect, dupSimHalf, partialDetect⟩

end GDSmell
